import Mathlib

/-!
Verification development for the grpc-helper framework.

Shallow embedding of the parts of the code base relevant to the checked
properties: the retrying client wrapper (client.py), the configuration
engine (config/cfg_manager.py, config/cfg_item.py), the events bus
(events/events_manager.py) and the proxy registration layer (server.py).

Python dicts are embedded as association lists (or as `String → Option String`
functions where the dict is only read through lookups), exceptions as
`Except`/`Option` error codes, and in-place object mutation as explicit
state passing.
-/

namespace GrpcHelper

/-! ## Result codes

Modelled from the spec: the `ResultCode` closed enumeration comes from the
generated protobuf API package, which is not part of the sources; only the
names and the relative order `OK < framework codes < ERROR_CUSTOM` are
relied upon by the code under verification. -/

def ResultCode.OK : Nat := 0

def ResultCode.ERROR : Nat := 1

def ResultCode.ERROR_RPC : Nat := 2

def ResultCode.ERROR_PARAM_MISSING : Nat := 3

def ResultCode.ERROR_PARAM_INVALID : Nat := 4

def ResultCode.ERROR_ITEM_UNKNOWN : Nat := 5

def ResultCode.ERROR_ITEM_CONFLICT : Nat := 6

def ResultCode.ERROR_MODEL_INVALID : Nat := 7

def ResultCode.ERROR_STATE_UNEXPECTED : Nat := 8

def ResultCode.ERROR_STREAM_SHUTDOWN : Nat := 9

def ResultCode.ERROR_CUSTOM : Nat := 100

/-! ## Retrying client (client.py) -/

/-- gRPC transport status codes (the subset distinguished by the client code:
`handle_exception` only ever compares against `UNAVAILABLE`). -/
inductive StatusCode where
  | UNAVAILABLE
  | DEADLINE_EXCEEDED
  | CANCELLED
  | UNKNOWN
  | INTERNAL
  deriving DecidableEq

/-- Outcome of `RetryMethod.handle_exception`: either sleep some seconds and
retry the call, or raise an `RpcException` with the given result code. -/
inductive RetryDecision where
  | retryAfter (sleepSeconds : Rat)
  | raiseError (rc : Nat)
  deriving DecidableEq

/-- Embedding of `RetryMethod.handle_exception` (client.py lines 32-40).
`timeout` is the client timeout in seconds (`None` embedded as `none`),
`elapsed` is `time.time() - first_try`. The code retries (after a 0.5 s
sleep) iff the transport error is `UNAVAILABLE`, the timeout is not `None`
and the elapsed time is still strictly below the timeout; otherwise it
raises `ERROR_RPC`. -/
def handle_exception (code : StatusCode) (timeout : Option Rat) (elapsed : Rat) : RetryDecision :=
  match timeout with
  | some t =>
    if code = StatusCode.UNAVAILABLE ∧ elapsed < t then
      RetryDecision.retryAfter (1 / 2)
    else
      RetryDecision.raiseError ResultCode.ERROR_RPC
  | none => RetryDecision.raiseError ResultCode.ERROR_RPC

/-- Embedding of the generated `Result` message (code / message / stack). -/
structure Result where
  code : Nat
  msg : String := ""
  stack : String := ""
  deriving DecidableEq

/-- Model of a generated response message as seen by `RetryMethod.raise_result`:
`r?` is `some r` exactly when the response has an `r` attribute holding a
`Result` (`hasattr(result, "r") and isinstance(result.r, Result)`); the rest
of the response is opaque payload. -/
structure Response where
  r? : Option Result
  payload : String := ""
  deriving DecidableEq

/-- Embedding of `RetryMethod.raise_result` (client.py lines 42-50): returns
`some code` when an exception carrying that result code is raised, `none`
when the call falls through. -/
def raise_result (resp : Response) (exception : Bool) : Option Nat :=
  match resp.r? with
  | some r =>
    if ResultCode.OK < r.code ∧ r.code < ResultCode.ERROR_CUSTOM ∧ exception = true then
      some r.code
    else
      none
  | none => none

/-- Post-receive step of `RetrySimpleMethod.__call__` (client.py lines 81-87):
run `raise_result` on the received response; if it raises, the call fails
with that code, otherwise the response is returned to the caller unchanged. -/
def processResponse (resp : Response) (exception : Bool) : Except Nat Response :=
  match raise_result resp exception with
  | some rc => Except.error rc
  | none => Except.ok resp

/-! ## Theorems for claims C3 and C4 -/

/-- C3: through the retrying client wrapper, a transport error of kind
UNAVAILABLE while elapsed < timeout leads to a 500 ms sleep and a retry; any
other transport error, or UNAVAILABLE after timeout expiry, raises ERROR_RPC;
and with timeout null or timeout 0 every transport error immediately raises
ERROR_RPC with no retry (elapsed time being nonnegative). -/
theorem retry_decision_spec (code : StatusCode) (t elapsed : Rat) :
    (handle_exception code (some t) elapsed = RetryDecision.retryAfter (1 / 2) ↔
      code = StatusCode.UNAVAILABLE ∧ elapsed < t) ∧
    handle_exception code none elapsed = RetryDecision.raiseError ResultCode.ERROR_RPC ∧
    (code ≠ StatusCode.UNAVAILABLE ∨ t ≤ elapsed →
      handle_exception code (some t) elapsed = RetryDecision.raiseError ResultCode.ERROR_RPC) ∧
    (0 ≤ elapsed →
      handle_exception code (some 0) elapsed = RetryDecision.raiseError ResultCode.ERROR_RPC) := by
  refine ⟨?_, rfl, ?_, ?_⟩
  · unfold handle_exception
    by_cases h : code = StatusCode.UNAVAILABLE ∧ elapsed < t
    · simp [h]
    · simp [h]
  · intro h
    unfold handle_exception
    have hne : ¬(code = StatusCode.UNAVAILABLE ∧ elapsed < t) := by
      rcases h with h | h
      · exact fun hc => h hc.1
      · exact fun hc => absurd hc.2 (not_lt.mpr h)
    simp [hne]
  · intro h
    unfold handle_exception
    have hne : ¬(code = StatusCode.UNAVAILABLE ∧ elapsed < (0 : Rat)) := by
      exact fun hc => absurd hc.2 (not_lt.mpr h)
    simp [hne]

/-- Witness for C3: concrete decisions — UNAVAILABLE well within a 60 s
timeout retries after 0.5 s; a DEADLINE_EXCEEDED error raises ERROR_RPC at
once; with timeout 0 even UNAVAILABLE raises ERROR_RPC at once. -/
theorem retry_decision_spec_witness :
    handle_exception StatusCode.UNAVAILABLE (some 60) 0 = RetryDecision.retryAfter (1 / 2) ∧
    handle_exception StatusCode.DEADLINE_EXCEEDED (some 60) 0 =
      RetryDecision.raiseError ResultCode.ERROR_RPC ∧
    handle_exception StatusCode.UNAVAILABLE (some 0) 0 =
      RetryDecision.raiseError ResultCode.ERROR_RPC :=
  ⟨(retry_decision_spec StatusCode.UNAVAILABLE 60 0).1.mpr ⟨rfl, by norm_num⟩,
   (retry_decision_spec StatusCode.DEADLINE_EXCEEDED 60 0).2.2.1 (Or.inl (by decide)),
   (retry_decision_spec StatusCode.UNAVAILABLE 0 0).2.2.2 le_rfl⟩

/-- C4: the wrapper raises an error carrying the response's Result code iff
the response has a first field r that is a Result, OK < r.code < ERROR_CUSTOM
and raiseOnNonOk is true; in every other case (including r.code ≥
ERROR_CUSTOM) the response is returned to the caller unchanged. -/
theorem raise_result_spec (resp : Response) (exception : Bool) :
    (∀ c, processResponse resp exception = Except.error c ↔
      ∃ r, resp.r? = some r ∧ ResultCode.OK < r.code ∧ r.code < ResultCode.ERROR_CUSTOM ∧
        exception = true ∧ c = r.code) ∧
    ((∀ r, resp.r? = some r →
        ¬(ResultCode.OK < r.code ∧ r.code < ResultCode.ERROR_CUSTOM ∧ exception = true)) →
      processResponse resp exception = Except.ok resp) := by
  constructor
  · intro c
    rcases hr : resp.r? with _ | r
    · constructor
      · intro he
        simp [processResponse, raise_result, hr] at he
      · rintro ⟨r', hr', h1⟩
        exact absurd hr' (by simp)
    · by_cases h : ResultCode.OK < r.code ∧ r.code < ResultCode.ERROR_CUSTOM ∧ exception = true
      · constructor
        · intro he
          simp only [processResponse, raise_result, hr, if_pos h] at he
          injection he with he
          exact ⟨r, rfl, h.1, h.2.1, h.2.2, he.symm⟩
        · rintro ⟨r', hr', h1, h2, h3, hc⟩
          injection hr' with h'
          subst h'
          subst hc
          simp only [processResponse, raise_result, hr, if_pos h]
      · constructor
        · intro he
          simp [processResponse, raise_result, hr, if_neg h] at he
        · rintro ⟨r', hr', h1, h2, h3, hc⟩
          injection hr' with h'
          subst h'
          exact absurd ⟨h1, h2, h3⟩ h
  · intro hno
    rcases hr : resp.r? with _ | r
    · simp [processResponse, raise_result, hr]
    · have hc := hno r hr
      simp [processResponse, raise_result, hr, hc]

/-- Witness for C4: a response whose Result code is 150 (≥ ERROR_CUSTOM) is
returned unchanged even with raiseOnNonOk set. -/
theorem raise_result_spec_witness :
    processResponse { r? := some { code := 150 }, payload := "p" } true =
      Except.ok { r? := some { code := 150 }, payload := "p" } := by
  refine (raise_result_spec { r? := some { code := 150 }, payload := "p" } true).2 ?_
  intro r hr
  injection hr with h
  subst h
  decide

/-! ## Events bus (events/events_manager.py) -/

/-- Entry read from a subscriber queue by the `listen` drain loop: a published
event (name and string properties), the `None` sentinel placed by `interrupt`,
or an `EventStatus` carrying a shutdown result placed by `_shutdown`. -/
inductive QEntry where
  | ev (name : String) (props : List (String × String))
  | sentinel
  | shutdownStatus (rc : Nat)
  deriving DecidableEq

/-- Per-event yield condition of `EventsManager.listen` (events_manager.py
line 133): `len(request.names) == 0 or event.name in request.names or
event.name == ""`. -/
def shouldYield (names : List String) (eventName : String) : Bool :=
  names.isEmpty || names.contains eventName || eventName == ""

/-- Drain loop of `EventsManager.listen` (events_manager.py lines 124-135):
dequeued entries are processed in order; a sentinel or shutdown status breaks
the loop, an event is yielded iff `shouldYield`. Returns the names of the
yielded events. -/
def drain (names : List String) : List QEntry → List String
  | [] => []
  | QEntry.sentinel :: _ => []
  | QEntry.shutdownStatus _ :: _ => []
  | QEntry.ev n _ :: rest =>
    (if shouldYield names n then [n] else []) ++ drain names rest

/-- Test distinguishing event entries from loop-breaking entries. -/
def QEntry.isEv : QEntry → Bool
  | QEntry.ev _ _ => true
  | _ => false

/-- Name of an event entry (unused default for loop-breaking entries). -/
def QEntry.evName : QEntry → String
  | QEntry.ev n _ => n
  | _ => ""

/-! ## Subscriber id allocation (events_manager.py, listen lines 108-118) -/

/-- Fuel-indexed embedding of the allocation loop
`index = 1; while index in self.__queues: index += 1`; the fuel argument only
makes the recursion structural, `used.length + 1` steps always suffice
(proved below). -/
def allocScan (used : List Nat) : Nat → Nat → Nat
  | 0, i => i
  | fuel + 1, i => if i ∈ used then allocScan used fuel (i + 1) else i

/-- New-subscriber id picked by `listen` when `client_id == 0`. -/
def allocIndex (used : List Nat) : Nat :=
  allocScan used (used.length + 1) 1

/-- Registry effect of the `client_id == 0` branch of `listen`: allocate the
id and add the new queue under it. -/
def listenNewQueue (queues : List Nat) : Nat × List Nat :=
  (allocIndex queues, queues ++ [allocIndex queues])

/-- Pigeonhole: among `1..used.length+1` some id is unused. -/
lemma exists_fresh (used : List Nat) : ∃ k, k ≤ used.length ∧ (1 + k) ∉ used := by
  by_contra h
  push_neg at h
  have hsub : (Finset.range (used.length + 1)).image (fun k => 1 + k) ⊆ used.toFinset := by
    intro x hx
    simp only [Finset.mem_image, Finset.mem_range] at hx
    obtain ⟨k, hk, rfl⟩ := hx
    exact List.mem_toFinset.mpr (h k (Nat.lt_succ_iff.mp hk))
  have hcard := Finset.card_le_card hsub
  rw [Finset.card_image_of_injective _ (fun a b hab => by omega), Finset.card_range] at hcard
  have := hcard.trans used.toFinset_card_le
  omega

/-- Correctness of the allocation loop: with enough fuel it returns the least
index `≥ start` not in `used`. -/
lemma allocScan_spec (used : List Nat) :
    ∀ fuel start, (∃ k, k < fuel ∧ (start + k) ∉ used) →
      allocScan used fuel start ∉ used ∧ start ≤ allocScan used fuel start ∧
        ∀ j, start ≤ j → j < allocScan used fuel start → j ∈ used := by
  intro fuel
  induction fuel with
  | zero =>
    intro start h
    obtain ⟨k, hk, _⟩ := h
    omega
  | succ n ih =>
    intro start h
    by_cases hs : start ∈ used
    · obtain ⟨k, hk, hk2⟩ := h
      have hk0 : k ≠ 0 := by
        rintro rfl
        exact hk2 hs
      have hnext : ∃ k', k' < n ∧ (start + 1 + k') ∉ used := by
        refine ⟨k - 1, by omega, ?_⟩
        have heq : start + 1 + (k - 1) = start + k := by omega
        rw [heq]
        exact hk2
      obtain ⟨h1, h2, h3⟩ := ih (start + 1) hnext
      rw [allocScan, if_pos hs]
      refine ⟨h1, by omega, ?_⟩
      intro j hj1 hj2
      rcases Nat.eq_or_lt_of_le hj1 with rfl | hj
      · exact hs
      · exact h3 j hj hj2
    · rw [allocScan, if_neg hs]
      exact ⟨hs, le_refl _, fun j hj1 hj2 => by omega⟩

/-! ## Theorems for claims C2 and C7 -/

/-- C2 counterexample: with the non-empty names filter ["foo"], a dequeued
empty-named keep-alive event IS yielded by the listen loop, although the
claim (filter empty or name in filter) requires it to be suppressed. -/
theorem listen_yield_counterexample :
    drain ["foo"] [QEntry.ev "" [], QEntry.sentinel] = [""] ∧
    ¬(["foo"] = ([] : List String)) ∧ ¬("" ∈ ["foo"]) := by
  refine ⟨rfl, by decide, by decide⟩

/-- C2 amended: a dequeued event is yielded iff the names filter is empty, or
contains the event's name, or the event's name is empty; in particular the
empty-named keep-alive event is yielded regardless of the filter. The drain
loop equals filtering the pre-sentinel prefix of the queue by that
condition. -/
theorem listen_yield_amended (names : List String) (q : List QEntry)
    (n : String) (props : List (String × String)) :
    drain names q =
      ((q.takeWhile QEntry.isEv).map QEntry.evName).filter (shouldYield names) ∧
    drain names (QEntry.ev n props :: q) =
      (if names = [] ∨ n ∈ names ∨ n = "" then n :: drain names q else drain names q) ∧
    drain names (QEntry.ev "" props :: q) = "" :: drain names q := by
  have hiff : ∀ m : String, shouldYield names m = true ↔ (names = [] ∨ m ∈ names ∨ m = "") := by
    intro m
    simp [shouldYield, List.isEmpty_iff, List.contains, List.elem_iff, or_assoc]
  refine ⟨?_, ?_, ?_⟩
  · induction q with
    | nil => rfl
    | cons e rest ih =>
      cases e with
      | ev m props' =>
        by_cases hm : shouldYield names m
        · simp [drain, List.takeWhile, QEntry.isEv, QEntry.evName, List.filter, hm, ih]
        · simp [drain, List.takeWhile, QEntry.isEv, QEntry.evName, List.filter, hm, ih]
      | sentinel => rfl
      | shutdownStatus rc => rfl
  · by_cases hn : names = [] ∨ n ∈ names ∨ n = ""
    · rw [if_pos hn, drain, if_pos ((hiff n).mpr hn)]
      rfl
    · rw [if_neg hn, drain, if_neg (by
        intro hy
        exact hn ((hiff n).mp hy))]
      rfl
  · rw [drain, if_pos ((hiff "").mpr (Or.inr (Or.inr rfl)))]
    rfl

/-- C7: subscriber id allocation in `listen` (clientId == 0) returns the
smallest positive integer not currently present in the queue registry, the
new id is not already used (so ids stay unique), and ids released by deletion
are the first to be reused. -/
theorem subscriber_id_allocation_spec (queues : List Nat) :
    (listenNewQueue queues).1 ∉ queues ∧
    0 < (listenNewQueue queues).1 ∧
    (∀ j, 0 < j → j ∉ queues → (listenNewQueue queues).1 ≤ j) ∧
    (queues.Nodup → (listenNewQueue queues).2.Nodup) := by
  obtain ⟨k, hk, hk2⟩ := exists_fresh queues
  obtain ⟨h1, h2, h3⟩ :=
    allocScan_spec queues (queues.length + 1) 1 ⟨k, by omega, hk2⟩
  simp only [listenNewQueue, allocIndex]
  refine ⟨h1, by omega, ?_, ?_⟩
  · intro j hj hjused
    by_contra hlt
    exact hjused (h3 j (by omega) (by omega))
  · intro hnd
    refine List.Nodup.append hnd (List.nodup_singleton _) ?_
    intro x hx hx'
    rw [List.mem_singleton] at hx'
    subst hx'
    exact h1 hx

/-- Witness for C7: with ids 2 and 3 in use (id 1 released), a new listen
call reuses id 1. -/
theorem subscriber_id_allocation_spec_witness :
    (listenNewQueue [2, 3]).1 ∉ [2, 3] ∧ (listenNewQueue [2, 3]).1 ≤ 1 ∧
    (listenNewQueue [2, 3]).1 = 1 :=
  ⟨(subscriber_id_allocation_spec [2, 3]).1,
   (subscriber_id_allocation_spec [2, 3]).2.2.1 1 (by decide) (by decide),
   by decide⟩

/-! ## Configuration items (config/cfg_item.py) -/

/-- Validator kinds of the `ConfigValidator` enumeration. -/
inductive ConfigValidator where
  | STRING
  | INT
  | POS_INT
  | FLOAT
  | POS_FLOAT
  | CUSTOM
  deriving DecidableEq

/-- Decimal digits to a number; `none` when the list is empty or holds a
non-digit character. Helper for the embeddings of Python `int()` and
`float()`. -/
def parseDigits (cs : List Char) : Option Nat :=
  match cs with
  | [] => none
  | _ =>
    cs.foldl
      (fun acc c =>
        match acc with
        | none => none
        | some n => if c.isDigit then some (n * 10 + (c.toNat - 48)) else none)
      (some 0)

/-- Model of Python `int(value)` on its core grammar (optional sign followed
by decimal digits); `none` embeds a raised `ValueError`. -/
def parseInt (s : String) : Option Int :=
  match s.data with
  | '-' :: rest => (parseDigits rest).map (fun n => -(n : Int))
  | '+' :: rest => (parseDigits rest).map (fun n => (n : Int))
  | cs => (parseDigits cs).map (fun n => (n : Int))

/-- Unsigned part of the Python `float()` model: `digits [. digits]` or
`. digits`, as an exact rational. -/
def parseFloatCore (cs : List Char) : Option Rat :=
  let intPart := cs.takeWhile (fun c => c ≠ '.')
  match cs.dropWhile (fun c => c ≠ '.') with
  | [] => (parseDigits intPart).map (fun n => (n : Rat))
  | '.' :: frac =>
    match intPart, frac with
    | [], [] => none
    | [], f => (parseDigits f).map (fun m => (m : Rat) / (10 : Rat) ^ f.length)
    | ip, [] => (parseDigits ip).map (fun n => (n : Rat))
    | ip, f =>
      match parseDigits ip, parseDigits f with
      | some n, some m => some ((n : Rat) + (m : Rat) / (10 : Rat) ^ f.length)
      | _, _ => none
  | _ => none

/-- Model of Python `float(value)` on its core decimal grammar; `none` embeds
a raised `ValueError`. -/
def parseFloat (s : String) : Option Rat :=
  match s.data with
  | '-' :: rest => (parseFloatCore rest).map (fun q => -q)
  | '+' :: rest => parseFloatCore rest
  | cs => parseFloatCore cs

/-- State of a `Config` instance (cfg_item.py): the wrapped `ConfigItem`
message fields used by the engine, the preserved hard-coded default, and the
optional user-supplied custom validator, embedded as a function returning the
raised error code (`none` when the value is accepted). -/
structure Config where
  name : String
  description : String := ""
  defaultValue : String := ""
  value : String := ""
  validator : ConfigValidator := ConfigValidator.STRING
  canBeEmpty : Bool := false
  customValidator : Option (String → Option Nat) := none
  hardCodedDefault : String := ""

/-- Embedding of `Config.validate` composed with the built-in `VALIDATORS`
table (cfg_item.py lines 11-50 and 114-121): returns the raised error code,
`none` when the value is accepted. The CUSTOM/no-function branch is
unreachable for constructed items (`mkConfig` refuses it). -/
def Config.validateE (c : Config) (value : String) : Option Nat :=
  if value = "" then
    if c.canBeEmpty then none else some ResultCode.ERROR_PARAM_MISSING
  else
    match c.validator with
    | ConfigValidator.STRING => none
    | ConfigValidator.INT =>
      match parseInt value with
      | some _ => none
      | none => some ResultCode.ERROR_PARAM_INVALID
    | ConfigValidator.POS_INT =>
      match parseInt value with
      | some i => if i ≤ 0 then some ResultCode.ERROR_PARAM_INVALID else none
      | none => some ResultCode.ERROR_PARAM_INVALID
    | ConfigValidator.FLOAT =>
      match parseFloat value with
      | some _ => none
      | none => some ResultCode.ERROR_PARAM_INVALID
    | ConfigValidator.POS_FLOAT =>
      match parseFloat value with
      | some q => if q ≤ 0 then some ResultCode.ERROR_PARAM_INVALID else none
      | none => some ResultCode.ERROR_PARAM_INVALID
    | ConfigValidator.CUSTOM =>
      match c.customValidator with
      | some f => f value
      | none => some ResultCode.ERROR

/-- Embedding of `Config.update` (cfg_item.py lines 107-112): validate, then
set the item value. -/
def Config.update (c : Config) (value : String) : Except Nat Config :=
  match c.validateE value with
  | some rc => Except.error rc
  | none => Except.ok { c with value := value }

/-- What `re.match(NAME_PATTERN, name)` actually checks (cfg_item.py line 8
and 72): Python `re.match` anchors the pattern only at the start of the
string, and the starred tail `[a-z0-9-]*` may match zero characters, so the
match succeeds exactly when the first character is a lowercase letter. -/
def namePatternMatch (s : String) : Bool :=
  match s.data with
  | [] => false
  | c :: _ => decide ('a' ≤ c) && decide (c ≤ 'z')

/-- Modelled from the spec: the full language of `[a-z][a-z0-9-]*` — one
lowercase letter followed by lowercase letters, digits and dashes (the name
invariant the spec asserts; compare with the code's prefix match). -/
def specNameLanguage (s : String) : Bool :=
  match s.data with
  | [] => false
  | c :: rest =>
    decide ('a' ≤ c) && decide (c ≤ 'z') &&
      rest.all (fun d => (decide ('a' ≤ d) && decide (d ≤ 'z')) || d.isDigit || d == '-')

/-- Embedding of `Config.__init__` (cfg_item.py lines 64-81): preserve the
hard-coded default, reject a name failing the pattern match with
ERROR_PARAM_INVALID, then reject a CUSTOM validator without a custom
validation function with ERROR_PARAM_MISSING. -/
def mkConfig (c : Config) : Except Nat Config :=
  if ¬ namePatternMatch c.name then
    Except.error ResultCode.ERROR_PARAM_INVALID
  else if c.validator = ConfigValidator.CUSTOM ∧ c.customValidator.isNone then
    Except.error ResultCode.ERROR_PARAM_MISSING
  else
    Except.ok { c with hardCodedDefault := c.defaultValue }

/-! ## Configuration manager (config/cfg_manager.py)

The manager's item dicts are embedded as association lists with unique keys;
read-only JSON/environment dicts as `String → Option String` functions. The
model covers a server without proxied peers (`__proxied_config_clients` is
empty, so `__merged_items` reduces to `__filter_items`). -/

/-- Lookup in an association-list embedding of a Python dict. -/
def lookupItem : List (String × Config) → String → Option Config
  | [], _ => none
  | p :: rest, n => if p.1 = n then some p.2 else lookupItem rest n

/-- Runtime state of a `ConfigManager`: static and user item dicts. -/
structure CfgState where
  static_items : List (String × Config)
  user_items : List (String × Config)

/-- Embedding of `ConfigManager.__filter_items` (cfg_manager.py lines
141-142): the requested names that denote user items, each paired with its
item; all user items when the filter is empty. -/
def CfgState.filterItems (st : CfgState) (names : List String) :
    List (String × Config) :=
  (if names.isEmpty then st.user_items.map Prod.fst else names).filterMap
    (fun n => (lookupItem st.user_items n).map (fun c => (n, c)))

/-- Embedding of `ConfigManager.__check_items` (lines 127-139): empty request
list (unless allowed), empty name, then unknown names. -/
def checkItems (inputNames : List String) (known : List String)
    (ignoreUnknown : Bool) (emptyOk : Bool) : Option Nat :=
  if ¬ emptyOk ∧ inputNames.isEmpty then some ResultCode.ERROR_PARAM_MISSING
  else if inputNames.any (fun n => decide (n = "")) then some ResultCode.ERROR_PARAM_MISSING
  else if ¬ ignoreUnknown ∧ inputNames.any (fun n => decide (n ∉ known)) then
    some ResultCode.ERROR_ITEM_UNKNOWN
  else none

/-- Embedding of `ConfigManager.get` (lines 174-185): filter, check (an empty
filter is allowed), and return the items. -/
def CfgState.get (st : CfgState) (names : List String) (ignoreUnknown : Bool) :
    Except Nat (List Config) :=
  let merged := st.filterItems names
  match checkItems names (merged.map Prod.fst) ignoreUnknown true with
  | some rc => Except.error rc
  | none => Except.ok (merged.map Prod.snd)

/-- One step of the Python dict comprehension
`{r.name: r.value for r in request.items}`: keys keep first-occurrence order,
values come from the last occurrence. -/
def insertReq (m : List (String × String)) (nv : String × String) :
    List (String × String) :=
  if m.any (fun p => decide (p.1 = nv.1)) then
    m.map (fun p => if p.1 = nv.1 then (p.1, nv.2) else p)
  else m ++ [nv]

/-- Request map built by `ConfigManager.set` from the request items. -/
def buildReqMap (items : List (String × String)) : List (String × String) :=
  items.foldl insertReq []

/-- In-place mutation `self.user_items[name].update(value)` on the dict
embedding (validation already performed): replace the named item's value. -/
def setItemValue (items : List (String × Config)) (n v : String) :
    List (String × Config) :=
  items.map (fun p => if p.1 = n then (p.1, { p.2 with value := v }) else p)

/-- Validation pass of `ConfigManager.set` (lines 222-223): first error code
raised when validating the new values of the requested user items. -/
def validateUserItems (st : CfgState) (reqMap : List (String × String)) :
    Option Nat :=
  reqMap.findSome? (fun p =>
    match lookupItem st.user_items p.1 with
    | some c => c.validateE p.2
    | none => none)

/-- Embedding of `ConfigManager.set` (lines 210-239), no-proxied-peers case:
build the request map, check names (empty request refused), validate the new
values of user items, update them, and return the refreshed items. -/
def CfgState.set (st : CfgState) (items : List (String × String))
    (ignoreUnknown : Bool) : Except Nat (CfgState × List Config) :=
  let reqMap := buildReqMap items
  let names := reqMap.map Prod.fst
  let merged := st.filterItems names
  match checkItems names (merged.map Prod.fst) ignoreUnknown false with
  | some rc => Except.error rc
  | none =>
    match validateUserItems st reqMap with
    | some rc => Except.error rc
    | none =>
      let st' : CfgState :=
        { st with
          user_items :=
            reqMap.foldl
              (fun acc p =>
                if (lookupItem st.user_items p.1).isSome then setItemValue acc p.1 p.2
                else acc)
              st.user_items }
      Except.ok (st', (st'.filterItems names).map Prod.snd)

/-- Embedding of `ConfigManager.__persist` (lines 123-125): the
workspace/config.json model written after a `set` — user items whose current
value differs from the effective default. -/
def CfgState.persisted (st : CfgState) : List (String × String) :=
  (st.user_items.filter (fun p => p.2.value != p.2.defaultValue)).map
    (fun p => (p.1, p.2.value))

/-- Reset of one named user item (`self.user_items[name].reset()`, cfg_item.py
lines 103-105): update to the stored default, propagating a validation
error. Names that are not user items are skipped by the caller's filter. -/
def resetItem (items : List (String × Config)) (n : String) :
    Except Nat (List (String × Config)) :=
  match lookupItem items n with
  | none => Except.ok items
  | some c =>
    match c.update c.defaultValue with
    | Except.error rc => Except.error rc
    | Except.ok c' =>
      Except.ok (items.map (fun p => if p.1 = n then (p.1, c') else p))

/-- Embedding of `ConfigManager.reset` (lines 187-208), no-proxied-peers
case: check names (empty filter refused), reset each named user item to its
default, and return the refreshed items. -/
def CfgState.reset (st : CfgState) (names : List String) (ignoreUnknown : Bool) :
    Except Nat (CfgState × List Config) :=
  let merged := st.filterItems names
  match checkItems names (merged.map Prod.fst) ignoreUnknown false with
  | some rc => Except.error rc
  | none =>
    match names.foldlM resetItem st.user_items with
    | Except.error rc => Except.error rc
    | Except.ok items' =>
      let st' : CfgState := { st with user_items := items' }
      Except.ok (st', (st'.filterItems names).map Prod.snd)

/-! ## Default resolution at construction (cfg_manager.py lines 90-121) -/

/-- Read-only string-to-string mapping (a JSON config file or the
environment), embedded by its dict lookups. -/
abbrev StrMap := String → Option String

/-- Python `dict.update`: bindings of the override win. -/
def dictUpdate (m override : StrMap) : StrMap :=
  fun k =>
    match override k with
    | some v => some v
    | none => m k

/-- Environment variable name of a config item (cfg_manager.py line 95):
`name.upper().replace("-", "_")`, embedded characterwise (ASCII uppercase,
dash to underscore; the two operations commute since upper keeps dashes). -/
def envVarName (name : String) : String :=
  String.mk (name.data.map (fun c => if c = '-' then '_' else c.toUpper))

/-- Embedding of `ConfigManager.__load_env_config` (lines 90-98): bindings
for the declared item names whose transformed env var name is set in the
environment. -/
def loadEnvConfig (itemNames : List String) (env : StrMap) : StrMap :=
  fun n => if n ∈ itemNames then env (envVarName n) else none

/-- Embedding of `ConfigManager.__load_defaults` (lines 100-121): hard-coded
defaults overridden in order by the system config file, the user config file,
the environment and the CLI override map. -/
def loadDefaults (items : List (String × Config))
    (systemCfg userCfg env cli : StrMap) : StrMap :=
  let hard : StrMap := fun n => (lookupItem items n).map (fun c => c.hardCodedDefault)
  dictUpdate
    (dictUpdate (dictUpdate (dictUpdate hard systemCfg) userCfg)
      (loadEnvConfig (items.map Prod.fst) env))
    cli

/-- Per-item value-loading step of `ConfigManager.__init__` (lines 39-55):
validate and install the effective default, then, when the workspace file has
a persisted value for the item, try it and fall back to the default when it
fails validation. -/
def initOne (c : Config) (defaultVal : String) (persisted : Option String) :
    Except Nat Config :=
  match c.validateE defaultVal with
  | some rc => Except.error rc
  | none =>
    let c1 : Config := { c with defaultValue := defaultVal }
    match persisted with
    | some cur =>
      match c1.update cur with
      | Except.ok c2 => Except.ok c2
      | Except.error _ => c1.update defaultVal
    | none => c1.update defaultVal

/-- Value loading of `ConfigManager.__init__` over an item dict (the loop on
`__all_items` runs over the static items then the user items; the two dicts
are disjoint). The `ERROR` branch is unreachable: `defaults` is built from
the same items. -/
def initItems (items : List (String × Config)) (defaults currents : StrMap) :
    Except Nat (List (String × Config)) :=
  items.mapM
    (fun p =>
      match defaults p.1 with
      | some d => (initOne p.2 d (currents p.1)).map (fun c => (p.1, c))
      | none => Except.error ResultCode.ERROR)

/-- Embedding of `ConfigManager.__init__` (lines 22-55): refuse items
declared as both static and user, resolve layered defaults over all items,
then load every item's default and current value (`currents` embeds the
persisted workspace/config.json). -/
def cfgInit (static_items user_items : List (String × Config))
    (systemCfg userCfg env cli currents : StrMap) : Except Nat CfgState :=
  if (static_items.map Prod.fst).any (fun n => (user_items.map Prod.fst).contains n) then
    Except.error ResultCode.ERROR_MODEL_INVALID
  else
    let all := static_items ++ user_items
    let defaults := loadDefaults all systemCfg userCfg env cli
    match initItems static_items defaults currents with
    | Except.error rc => Except.error rc
    | Except.ok s =>
      match initItems user_items defaults currents with
      | Except.error rc => Except.error rc
      | Except.ok u => Except.ok ⟨s, u⟩

/-! ## Theorems for claims C9, C5 and C6 -/

/-- C9: evaluation at the failing input — the name "a_b" is outside the
language [a-z][a-z0-9-]*, yet Config construction accepts it, because
`re.match` anchors `NAME_PATTERN` only at the start of the string; a name
whose first character is not a lowercase letter ("A-b") is rejected with
ERROR_PARAM_INVALID as both the code and the claim state. -/
theorem config_name_validation_bug :
    specNameLanguage "a_b" = false ∧
    (mkConfig { name := "a_b" }).isOk = true ∧
    mkConfig { name := "A-b" } = Except.error ResultCode.ERROR_PARAM_INVALID := by
  refine ⟨by decide, by decide, rfl⟩

/-- C5: at construction the effective default of every declared config item
is resolved last-writer-wins over five layers in order — hard-coded
declaration default, then system config.json, then user config.json, then the
environment variable named after the item (uppercased, dashes to
underscores), then the CLI override map. -/
theorem config_default_precedence
    (items : List (String × Config)) (systemCfg userCfg env cli : StrMap)
    (n : String) (hmem : n ∈ items.map Prod.fst) :
    loadDefaults items systemCfg userCfg env cli n =
      match cli n with
      | some v => some v
      | none =>
        match env (envVarName n) with
        | some v => some v
        | none =>
          match userCfg n with
          | some v => some v
          | none =>
            match systemCfg n with
            | some v => some v
            | none => (lookupItem items n).map (fun c => c.hardCodedDefault) := by
  unfold loadDefaults dictUpdate loadEnvConfig
  simp only [if_pos hmem]

/-- Witness for C5: with the environment holding RPC_MAX_WORKERS=8 and no
other layer set, the resolved default of rpc-max-workers is "8" (spec
scenario 1). -/
theorem config_default_precedence_witness :
    loadDefaults
        [("rpc-max-workers", { name := "rpc-max-workers", hardCodedDefault := "30" })]
        (fun _ => none) (fun _ => none)
        (fun k => if k = "RPC_MAX_WORKERS" then some "8" else none) (fun _ => none)
        "rpc-max-workers" = some "8" := by
  rw [config_default_precedence _ _ _ _ _ _ (by decide)]
  decide

/-- C6 counterexample: a STATIC item "s" (resolved effective default "a")
whose name appears in the persisted workspace/config.json with the valid
value "b" ends construction with current value "b" ≠ its resolved default —
the value-loading loop of `__init__` runs over all items, not only user
ones. -/
theorem config_workspace_static_counterexample :
    cfgInit [("s", { name := "s", defaultValue := "a", hardCodedDefault := "a" })] []
        (fun _ => none) (fun _ => none) (fun _ => none) (fun _ => none)
        (fun n => if n = "s" then some "b" else none) =
      Except.ok
        ⟨[("s", { name := "s", defaultValue := "a", value := "b", hardCodedDefault := "a" })],
          []⟩ ∧
    ("b" : String) ≠ "a" := by
  exact ⟨rfl, by decide⟩

/-- C6 amended: after construction, the persisted workspace/config.json
replaces the current value of every declared item present in it (static or
user alike) whose persisted value passes validation; items absent from the
file, or whose persisted value fails validation, get their resolved effective
default as current value. -/
theorem config_workspace_load_amended (c : Config) (d : String)
    (persisted : Option String) (hd : c.validateE d = none) :
    (persisted = none →
      initOne c d persisted = Except.ok { c with defaultValue := d, value := d }) ∧
    (∀ cur, persisted = some cur → c.validateE cur = none →
      initOne c d persisted = Except.ok { c with defaultValue := d, value := cur }) ∧
    (∀ cur, persisted = some cur → c.validateE cur ≠ none →
      initOne c d persisted = Except.ok { c with defaultValue := d, value := d }) := by
  have hidem : ∀ v, ({ c with defaultValue := d } : Config).validateE v = c.validateE v :=
    fun v => rfl
  refine ⟨?_, ?_, ?_⟩
  · rintro rfl
    simp [initOne, Config.update, hd, hidem]
  · rintro cur rfl hcur
    simp [initOne, Config.update, hd, hidem, hcur]
  · rintro cur rfl hcur
    obtain ⟨rc, hrc⟩ := Option.ne_none_iff_exists'.mp hcur
    simp [initOne, Config.update, hd, hidem, hrc]

/-- Witness for C6 amended: a user item with default "a" — an invalid
persisted value (empty string, not allowed) falls back to "a"; a valid
persisted value "b" is installed. -/
theorem config_workspace_load_amended_witness :
    initOne { name := "u" } "a" (some "") =
      Except.ok { name := "u", defaultValue := "a", value := "a" } ∧
    initOne { name := "u" } "a" (some "b") =
      Except.ok { name := "u", defaultValue := "a", value := "b" } :=
  ⟨(config_workspace_load_amended { name := "u" } "a" (some "") (by decide)).2.2 ""
      rfl (by decide),
   (config_workspace_load_amended { name := "u" } "a" (some "b") (by decide)).2.1 "b"
      rfl (by decide)⟩

/-! ## Theorems for claims C1 and C10 -/

/-- Updating values under a key-preserving map commutes with lookup. -/
lemma lookupItem_map_value (g : String → Config → Config) :
    ∀ (items : List (String × Config)) (m : String),
      lookupItem (items.map (fun p => (p.1, g p.1 p.2))) m =
        (lookupItem items m).map (g m) := by
  intro items m
  induction items with
  | nil => rfl
  | cons p rest ih =>
    by_cases hm : p.1 = m
    · subst hm
      simp [lookupItem, ih]
    · simp [lookupItem, hm, ih]

/-- The conditional update of `setItemValue` as a key-preserving map. -/
lemma setItemValue_eq_map (items : List (String × Config)) (n v : String) :
    setItemValue items n v =
      items.map (fun p => (p.1, if p.1 = n then { p.2 with value := v } else p.2)) := by
  unfold setItemValue
  induction items with
  | nil => rfl
  | cons p rest ih =>
    simp only [List.map_cons, ih]
    by_cases hp : p.1 = n
    · simp [hp]
    · simp [hp]

/-- Lookup after a value update: the named item's value is replaced, other
names are untouched. -/
lemma lookupItem_setItemValue (items : List (String × Config)) (n v m : String) :
    lookupItem (setItemValue items n v) m =
      if m = n then (lookupItem items m).map (fun c => { c with value := v })
      else lookupItem items m := by
  rw [setItemValue_eq_map, lookupItem_map_value (fun k c => if k = n then { c with value := v } else c)]
  by_cases h : m = n
  · simp [h]
  · simp [h]

/-- Filtering a single existing user item. -/
lemma filterItems_single (st : CfgState) (n : String) (c : Config)
    (h : lookupItem st.user_items n = some c) :
    st.filterItems [n] = [(n, c)] := by
  simp [CfgState.filterItems, h]

/-- The request checks pass for a single known nonempty name. -/
lemma checkItems_single (n : String) (hne : n ≠ "") (ig eo : Bool) :
    checkItems [n] [n] ig eo = none := by
  simp [checkItems, hne]

/-- C1: for every user config item i and value v passing i's validation, a
successful config.set updating i to v followed by config.get on i returns an
item whose value equals v (read-your-writes over the config service). -/
theorem config_set_get_read_your_writes (st : CfgState) (i v : String) (c : Config)
    (hne : i ≠ "") (hlook : lookupItem st.user_items i = some c)
    (hval : c.validateE v = none) (ig ig' : Bool) :
    ∃ st', st.set [(i, v)] ig = Except.ok (st', [{ c with value := v }]) ∧
      st'.get [i] ig' = Except.ok [{ c with value := v }] := by
  have hreq : buildReqMap [(i, v)] = [(i, v)] := by simp [buildReqMap, insertReq]
  have hmerged : st.filterItems [i] = [(i, c)] := filterItems_single st i c hlook
  have hvalid : validateUserItems st [(i, v)] = none := by
    simp [validateUserItems, hlook, hval]
  have hlook' : lookupItem (setItemValue st.user_items i v) i =
      some { c with value := v } := by
    rw [lookupItem_setItemValue]
    simp [hlook]
  have hmerged' :
      CfgState.filterItems ⟨st.static_items, setItemValue st.user_items i v⟩ [i] =
        [(i, { c with value := v })] :=
    filterItems_single _ i _ hlook'
  refine ⟨⟨st.static_items, setItemValue st.user_items i v⟩, ?_, ?_⟩
  · simp only [CfgState.set, hreq, List.map_cons, List.map_nil, hmerged,
      checkItems_single i hne ig false, hvalid, List.foldl_cons, List.foldl_nil, hlook,
      Option.isSome_some, if_pos, hmerged', List.map_cons, List.map_nil]
  · simp only [CfgState.get, hmerged', List.map_cons, List.map_nil,
      checkItems_single i hne ig' true]

/-- Witness for C1: setting the user item my-int-config (INT validator,
default 12) to 999 then getting it returns value 999. -/
theorem config_set_get_read_your_writes_witness :
    ∃ st',
      CfgState.set
          ⟨[],
            [("my-int-config",
                { name := "my-int-config", validator := ConfigValidator.INT,
                  defaultValue := "12", value := "12" })]⟩
          [("my-int-config", "999")] false =
        Except.ok
          (st',
            [{ name := "my-int-config", validator := ConfigValidator.INT,
                defaultValue := "12", value := "999" }]) ∧
      CfgState.get st' ["my-int-config"] false =
        Except.ok
          [{ name := "my-int-config", validator := ConfigValidator.INT,
              defaultValue := "12", value := "999" }] :=
  config_set_get_read_your_writes
    ⟨[],
      [("my-int-config",
          { name := "my-int-config", validator := ConfigValidator.INT,
            defaultValue := "12", value := "12" })]⟩
    "my-int-config" "999"
    { name := "my-int-config", validator := ConfigValidator.INT,
      defaultValue := "12", value := "12" }
    (by decide) rfl (by decide) false false

/-- Looking every key of an item dict up in that dict returns the dict. -/
lemma filterMap_lookup_self (items : List (String × Config))
    (hnd : (items.map Prod.fst).Nodup) :
    (items.map Prod.fst).filterMap
        (fun n => (lookupItem items n).map (fun c => (n, c))) = items := by
  induction items with
  | nil => rfl
  | cons p rest ih =>
    simp only [List.map_cons, List.nodup_cons] at hnd
    obtain ⟨hnot, hnd'⟩ := hnd
    simp only [List.map_cons, List.filterMap_cons]
    have hhead : lookupItem (p :: rest) p.1 = some p.2 := by simp [lookupItem]
    rw [hhead]
    have htail :
        (rest.map Prod.fst).filterMap
            (fun n => (lookupItem (p :: rest) n).map (fun c => (n, c))) =
          (rest.map Prod.fst).filterMap
            (fun n => (lookupItem rest n).map (fun c => (n, c))) := by
      refine List.filterMap_congr ?_
      intro n hn
      have hne : p.1 ≠ n := fun h => hnot (h ▸ hn)
      simp [lookupItem, hne]
    simp [htail, ih hnd']

/-- C10: config.get with an empty names list succeeds and returns every user
config item, whereas config.set and config.reset with an empty item/name list
fail with ERROR_PARAM_MISSING. -/
theorem config_empty_filter_spec (st : CfgState) (ig : Bool)
    (hnd : (st.user_items.map Prod.fst).Nodup) :
    st.get [] ig = Except.ok (st.user_items.map Prod.snd) ∧
    st.set [] ig = Except.error ResultCode.ERROR_PARAM_MISSING ∧
    st.reset [] ig = Except.error ResultCode.ERROR_PARAM_MISSING := by
  refine ⟨?_, ?_, ?_⟩
  · have hfil : st.filterItems [] = st.user_items := by
      simp only [CfgState.filterItems, List.isEmpty_nil, if_pos]
      exact filterMap_lookup_self st.user_items hnd
    have hchk : checkItems [] (st.user_items.map Prod.fst) ig true = none := by
      simp [checkItems]
    simp [CfgState.get, hfil, hchk]
  · simp [CfgState.set, buildReqMap, checkItems]
  · simp [CfgState.reset, checkItems]

/-- Witness for C10: on a one-user-item manager, get([]) returns that item
while set([]) and reset([]) fail with ERROR_PARAM_MISSING. -/
theorem config_empty_filter_spec_witness :
    CfgState.get ⟨[], [("a", { name := "a" })]⟩ [] false =
      Except.ok [{ name := "a" }] ∧
    CfgState.set ⟨[], [("a", { name := "a" })]⟩ [] false =
      Except.error ResultCode.ERROR_PARAM_MISSING ∧
    CfgState.reset ⟨[], [("a", { name := "a" })]⟩ [] false =
      Except.error ResultCode.ERROR_PARAM_MISSING :=
  config_empty_filter_spec ⟨[], [("a", { name := "a" })]⟩ false (by decide)

/-! ## Proxy registration (server.py) -/

/-- Embedding of the `ServiceInfo` message held in the server's `__info`
dict. -/
structure ServiceInfo where
  name : String := ""
  version : String := ""
  currentApiVersion : Nat := 0
  supportedApiVersion : Nat := 0
  isProxy : Bool := false
  proxyHost : String := ""
  proxyPort : Nat := 0
  deriving DecidableEq

/-- Lookup in the server's `__info` dict. -/
def lookupInfo : List (String × ServiceInfo) → String → Option ServiceInfo
  | [], _ => none
  | p :: rest, n => if p.1 = n then some p.2 else lookupInfo rest n

/-- Embedding of `RpcServer.__check_proxy_names` with the inner
`__check_service_names` (server.py lines 422-434): an empty names list or an
empty name → ERROR_PARAM_MISSING; an unknown service name →
ERROR_ITEM_UNKNOWN; a non-proxy service → ERROR_PARAM_INVALID. -/
def checkProxyNames (reg : List (String × ServiceInfo)) (names : List String) :
    Option Nat :=
  if names.isEmpty || names.any (fun n => decide (n = "")) then
    some ResultCode.ERROR_PARAM_MISSING
  else if names.any (fun n => (lookupInfo reg n).isNone) then
    some ResultCode.ERROR_ITEM_UNKNOWN
  else if names.any (fun n =>
      match lookupInfo reg n with
      | some si => !si.isProxy
      | none => false) then
    some ResultCode.ERROR_PARAM_INVALID
  else none

/-- Embedding of `RpcServer.proxy_register` (server.py lines 444-461): after
the name checks and the non-empty version / non-zero port check, set
version, proxyPort and proxyHost of each named service to the request's
values. -/
def proxy_register (reg : List (String × ServiceInfo)) (names : List String)
    (version host : String) (port : Nat) :
    Except Nat (List (String × ServiceInfo)) :=
  match checkProxyNames reg names with
  | some rc => Except.error rc
  | none =>
    if version = "" ∨ port = 0 then Except.error ResultCode.ERROR_PARAM_MISSING
    else
      Except.ok
        (reg.map (fun p =>
          if p.1 ∈ names then
            (p.1, { p.2 with version := version, proxyPort := port, proxyHost := host })
          else p))

/-- Embedding of `RpcServer.proxy_forget` (server.py lines 463-477): after
the name checks, clear proxyPort and proxyHost of each named service. -/
def proxy_forget (reg : List (String × ServiceInfo)) (names : List String) :
    Except Nat (List (String × ServiceInfo)) :=
  match checkProxyNames reg names with
  | some rc => Except.error rc
  | none =>
    Except.ok
      (reg.map (fun p =>
        if p.1 ∈ names then (p.1, { p.2 with proxyPort := 0, proxyHost := "" }) else p))

/-! ## Theorem for claim C8 -/

/-- Updating values under a key-preserving map commutes with info lookup. -/
lemma lookupInfo_map_value (g : String → ServiceInfo → ServiceInfo) :
    ∀ (reg : List (String × ServiceInfo)) (m : String),
      lookupInfo (reg.map (fun p => (p.1, g p.1 p.2))) m =
        (lookupInfo reg m).map (g m) := by
  intro reg m
  induction reg with
  | nil => rfl
  | cons p rest ih =>
    by_cases hm : p.1 = m
    · subst hm
      simp [lookupInfo, ih]
    · simp [lookupInfo, hm, ih]

/-- The conditional update of the proxy registration code as a key-preserving
map. -/
lemma updateIf_eq_map (reg : List (String × ServiceInfo)) (names : List String)
    (h : ServiceInfo → ServiceInfo) :
    reg.map (fun p => if p.1 ∈ names then (p.1, h p.2) else p) =
      reg.map (fun p => (p.1, if p.1 ∈ names then h p.2 else p.2)) := by
  induction reg with
  | nil => rfl
  | cons p rest ih =>
    simp only [List.map_cons, ih]
    by_cases hp : p.1 ∈ names
    · simp [hp]
    · simp [hp]

/-- Lookup after the conditional field update: a named service's info is
transformed, an unnamed one is untouched. -/
lemma lookupInfo_updateIf (reg : List (String × ServiceInfo)) (names : List String)
    (h : ServiceInfo → ServiceInfo) (m : String) :
    lookupInfo (reg.map (fun p => if p.1 ∈ names then (p.1, h p.2) else p)) m =
      if m ∈ names then (lookupInfo reg m).map h else lookupInfo reg m := by
  rw [updateIf_eq_map reg names h,
    lookupInfo_map_value (fun k si => if k ∈ names then h si else si) reg m]
  by_cases hm : m ∈ names
  · simp [hm]
  · simp [hm]

/-- The proxy-name checks are stable under any field update that keeps the
isProxy flag. -/
lemma checkProxyNames_updateIf (reg : List (String × ServiceInfo))
    (qnames names : List String) (h : ServiceInfo → ServiceInfo)
    (hproxy : ∀ si, (h si).isProxy = si.isProxy) :
    checkProxyNames (reg.map (fun p => if p.1 ∈ qnames then (p.1, h p.2) else p)) names =
      checkProxyNames reg names := by
  have h2 : (fun n =>
      (lookupInfo (reg.map (fun p => if p.1 ∈ qnames then (p.1, h p.2) else p)) n).isNone) =
      fun n => (lookupInfo reg n).isNone := by
    funext n
    rw [lookupInfo_updateIf reg qnames h n]
    by_cases hn : n ∈ qnames
    · cases hl : lookupInfo reg n <;> simp [hn, hl]
    · simp [hn]
  have h3 : (fun n =>
      match lookupInfo (reg.map (fun p => if p.1 ∈ qnames then (p.1, h p.2) else p)) n with
      | some si => !si.isProxy
      | none => false) =
      fun n =>
        match lookupInfo reg n with
        | some si => !si.isProxy
        | none => false := by
    funext n
    rw [lookupInfo_updateIf reg qnames h n]
    by_cases hn : n ∈ qnames
    · cases hl : lookupInfo reg n <;> simp [hn, hl, hproxy]
    · simp [hn]
  unfold checkProxyNames
  rw [h2, h3]

/-- C8: a successful proxy_register(names, version, host, port) sets each
named service's version, proxyHost and proxyPort to the request's values
(leaving all other fields and all other services unchanged), and a subsequent
proxy_forget(names) succeeds and sets proxyPort to 0 and proxyHost to "",
keeping the version field and everything else. -/
theorem proxy_register_forget_spec (reg reg' : List (String × ServiceInfo))
    (names : List String) (version host : String) (port : Nat)
    (hreg : proxy_register reg names version host port = Except.ok reg') :
    ∃ reg'', proxy_forget reg' names = Except.ok reg'' ∧
      ∀ n,
        (n ∉ names → lookupInfo reg' n = lookupInfo reg n ∧
          lookupInfo reg'' n = lookupInfo reg n) ∧
        (n ∈ names → ∀ si, lookupInfo reg n = some si →
          lookupInfo reg' n =
            some { si with version := version, proxyHost := host, proxyPort := port } ∧
          lookupInfo reg'' n =
            some { si with version := version, proxyHost := "", proxyPort := 0 }) := by
  unfold proxy_register at hreg
  cases hchk : checkProxyNames reg names with
  | some rc =>
    rw [hchk] at hreg
    exact absurd hreg (by simp)
  | none =>
    rw [hchk] at hreg
    by_cases hvp : version = "" ∨ port = 0
    · rw [if_pos hvp] at hreg
      exact absurd hreg (by simp)
    · rw [if_neg hvp] at hreg
      injection hreg with hreg
      subst hreg
      have hchk' : checkProxyNames
          (reg.map (fun p =>
            if p.1 ∈ names then
              (p.1, { p.2 with version := version, proxyPort := port, proxyHost := host })
            else p))
          names = none := by
        rw [checkProxyNames_updateIf reg names names
          (fun si => { si with version := version, proxyPort := port, proxyHost := host })
          (fun si => rfl)]
        exact hchk
      refine ⟨(reg.map (fun p =>
          if p.1 ∈ names then
            (p.1, { p.2 with version := version, proxyPort := port, proxyHost := host })
          else p)).map (fun p =>
          if p.1 ∈ names then (p.1, { p.2 with proxyPort := 0, proxyHost := "" }) else p),
        ?_, ?_⟩
      · unfold proxy_forget
        rw [hchk']
      · intro n
        constructor
        · intro hn
          constructor
          · rw [lookupInfo_updateIf reg names
              (fun si => { si with version := version, proxyPort := port, proxyHost := host }) n]
            simp [hn]
          · rw [lookupInfo_updateIf _ names
              (fun si => { si with proxyPort := 0, proxyHost := "" }) n,
              lookupInfo_updateIf reg names
              (fun si => { si with version := version, proxyPort := port, proxyHost := host }) n]
            simp [hn]
        · intro hn si hsi
          constructor
          · rw [lookupInfo_updateIf reg names
              (fun si => { si with version := version, proxyPort := port, proxyHost := host }) n]
            simp [hn, hsi]
          · rw [lookupInfo_updateIf _ names
              (fun si => { si with proxyPort := 0, proxyHost := "" }) n,
              lookupInfo_updateIf reg names
              (fun si => { si with version := version, proxyPort := port, proxyHost := host }) n]
            simp [hn, hsi]

/-- Witness for C8: one proxy service "sample"; registering version "123",
host "h", port 1234 then forgetting it behaves as stated. -/
theorem proxy_register_forget_spec_witness :
    ∃ reg'',
      proxy_forget
          [("sample",
              { name := "sample", version := "123", isProxy := true, proxyHost := "h",
                proxyPort := 1234 })]
          ["sample"] = Except.ok reg'' ∧
      ∀ n,
        (n ∉ ["sample"] →
          lookupInfo
              [("sample",
                  { name := "sample", version := "123", isProxy := true, proxyHost := "h",
                    proxyPort := 1234 })] n =
            lookupInfo [("sample", { name := "sample", isProxy := true })] n ∧
          lookupInfo reg'' n =
            lookupInfo [("sample", { name := "sample", isProxy := true })] n) ∧
        (n ∈ ["sample"] → ∀ si,
          lookupInfo [("sample", { name := "sample", isProxy := true })] n = some si →
          lookupInfo
              [("sample",
                  { name := "sample", version := "123", isProxy := true, proxyHost := "h",
                    proxyPort := 1234 })] n =
            some { si with version := "123", proxyHost := "h", proxyPort := 1234 } ∧
          lookupInfo reg'' n =
            some { si with version := "123", proxyHost := "", proxyPort := 0 }) :=
  proxy_register_forget_spec [("sample", { name := "sample", isProxy := true })]
    [("sample",
        { name := "sample", version := "123", isProxy := true, proxyHost := "h",
          proxyPort := 1234 })]
    ["sample"] "123" "h" 1234 rfl

end GrpcHelper
